import Mathlib

/-!
Verification of the SpaceLanes arcade engine (CST2120 coursework repository).

Each section embeds one part of the JavaScript source as Lean definitions
and proves the claims of the specification about it.  Scalar quantities of
the game-logic code are modelled with rationals; the continuous physics
(which uses Math.pow with a real exponent, Math.sqrt and trigonometry) is
modelled with real numbers.
-/

namespace SpaceLanes

/-! ## Spaceship damage model (src/js/engine/Spaceship.js)

Only the fields read or written by takeDamage and by the
shield/invulnerability slice of update are carried. -/

structure Ship where
  health : ℚ
  maxHealth : ℚ
  shieldActive : Bool
  shieldStrength : ℚ
  shieldMaxStrength : ℚ
  invulnerable : Bool
  invulnerabilityTimer : ℚ
  deriving Repr, DecidableEq

namespace Ship

/-- Embedding of `Spaceship.takeDamage(amount)`: returns the JS boolean
result (destroyed or not) together with the updated ship. -/
def takeDamage (amount : ℚ) (s : Ship) : Bool × Ship :=
  if s.invulnerable then (false, s)
  else if s.shieldActive ∧ 0 < s.shieldStrength then
    let str := max 0 (s.shieldStrength - amount)
    (false,
      { s with
        shieldStrength := str
        shieldActive := if str = 0 then false else s.shieldActive })
  else
    let h := max 0 (s.health - amount)
    (decide (h ≤ 0),
      { s with
        health := h
        invulnerable := true
        invulnerabilityTimer := 1 })

/-- Embedding of the invulnerability-timer slice of
`Spaceship.update(deltaTime)`. -/
def invulnStep (dt : ℚ) (s : Ship) : Ship :=
  if s.invulnerable then
    let t := max 0 (s.invulnerabilityTimer - dt)
    { s with
      invulnerabilityTimer := t
      invulnerable := if t = 0 then false else s.invulnerable }
  else s

end Ship

/-- A concrete ship with an active shield, used to instantiate theorems. -/
def shipA : Ship :=
  { health := 100, maxHealth := 100, shieldActive := true
    shieldStrength := 40, shieldMaxStrength := 100
    invulnerable := false, invulnerabilityTimer := 0 }

/-- A concrete ship with a depleted shield. -/
def shipB : Ship :=
  { health := 70, maxHealth := 100, shieldActive := false
    shieldStrength := 0, shieldMaxStrength := 100
    invulnerable := false, invulnerabilityTimer := 0 }

/-- A concrete invulnerable ship. -/
def shipC : Ship :=
  { health := 70, maxHealth := 100, shieldActive := true
    shieldStrength := 40, shieldMaxStrength := 100
    invulnerable := true, invulnerabilityTimer := 1 }

/-! ## Asteroid size classes (src/js/engine/GameObjects.js) -/

/-- The four obstacle size classes of the game. -/
inductive Size
  | small
  | medium
  | large
  | huge
  deriving Repr, DecidableEq

/-- The `sizeHierarchy` array of `Asteroid.split`, largest first. -/
def sizeHierarchy : List Size := [.huge, .large, .medium, .small]

/-- The next-smaller size class as computed by `Asteroid.split`
(`sizeHierarchy[currentIndex + 1]`). -/
def hierNext (s : Size) : Size :=
  sizeHierarchy.getD (sizeHierarchy.indexOf s + 1) .small

/-! ## Combo and scoring (src/js/engine/GameEngine.js) -/

/-- The `comboSystem` aggregate of the engine. -/
structure Combo where
  count : ℕ
  timer : ℚ
  maxTime : ℚ
  multiplier : ℚ
  maxMultiplier : ℚ
  deriving Repr, DecidableEq

/-- The score-related slice of the engine session state. -/
structure ScoreState where
  score : ℤ
  kills : ℕ
  combo : Combo
  deriving Repr, DecidableEq

/-- Embedding of `GameEngine.increaseCombo`. -/
def increaseCombo (c : Combo) : Combo :=
  let cnt := c.count + 1
  { c with
    count := cnt
    timer := 0
    multiplier := min (1 + (cnt : ℚ) * (1 / 10)) c.maxMultiplier }

/-- Embedding of `GameEngine.resetCombo`. -/
def resetCombo (g : ScoreState) : ScoreState :=
  let score' :=
    if 10 ≤ g.combo.count then g.score + ⌊(g.combo.count : ℚ) * 50⌋ else g.score
  { g with
    score := score'
    combo := { g.combo with count := 0, timer := 0, multiplier := 1 } }

/-- The `scoreMap` of the projectile-kill branch of `GameEngine.update`. -/
def scoreMap : Size → ℚ
  | .small => 100
  | .medium => 50
  | .large => 25
  | .huge => 10

/-- The `scoreValue` that `GameEngine.spawnBoss` assigns to a boss. -/
def bossScoreValue : ℚ := 1000

/-- The base score of a kill: `asteroid.isBoss ? asteroid.scoreValue :
scoreMap[asteroid.size]`. -/
def baseScore (isBoss : Bool) (scoreValue : ℚ) (sz : Size) : ℚ :=
  if isBoss then scoreValue else scoreMap sz

/-- The score awarded for one kill:
`Math.floor(baseScore * comboSystem.multiplier)`. -/
def killScore (base mult : ℚ) : ℤ := ⌊base * mult⌋

/-- Embedding of the kill bookkeeping of the projectile-kill branch of
`GameEngine.update`: `increaseCombo()` first, then the score award with
the updated multiplier, then the kill counter. -/
def registerKill (isBoss : Bool) (scoreValue : ℚ) (sz : Size)
    (g : ScoreState) : ScoreState :=
  let combo := increaseCombo g.combo
  let fin := killScore (baseScore isBoss scoreValue sz) combo.multiplier
  { g with combo := combo, score := g.score + fin, kills := g.kills + 1 }

/-- Embedding of the combo-timer block of `GameEngine.update`:
`if (count > 0) { timer += dt; if (timer >= maxTime) resetCombo(); }`. -/
def comboTick (dt : ℚ) (g : ScoreState) : ScoreState :=
  if 0 < g.combo.count then
    let t := g.combo.timer + dt
    let g' := { g with combo := { g.combo with timer := t } }
    if g.combo.maxTime ≤ t then resetCombo g' else g'
  else g

/-- Folding the combo-timer block over a list of frame deltas. -/
def comboTicks (dts : List ℚ) (g : ScoreState) : ScoreState :=
  dts.foldl (fun s d => comboTick d s) g

/-- A concrete score state with a running 12-kill combo. -/
def scoreStateA : ScoreState :=
  { score := 4000, kills := 12
    combo :=
      { count := 12, timer := 0, maxTime := 3
        multiplier := min (1 + 12 * (1 / 10)) 8, maxMultiplier := 8 } }

/-! ## Engine run-state machine (src/js/engine/GameEngine.js) -/

/-- The four run phases of the engine. -/
inductive GState
  | menu
  | playing
  | paused
  | gameover
  deriving Repr, DecidableEq

/-- The state-machine slice of the engine session, with the scalar
session fields that `start()` resets. -/
structure Shell where
  state : GState
  score : ℤ
  wave : ℕ
  kills : ℕ
  time : ℚ
  deriving Repr, DecidableEq

/-- Embedding of `GameEngine.pause`: the assignment is guarded by
`state === 'playing'`. -/
def pauseCmd (g : Shell) : Shell :=
  if g.state = .playing then { g with state := .paused } else g

/-- Embedding of `GameEngine.resume`: the assignment is guarded by
`state === 'paused'`. -/
def resumeCmd (g : Shell) : Shell :=
  if g.state = .paused then { g with state := .playing } else g

/-- Embedding of the session-reset part of `GameEngine.start`. -/
def startCmd (g : Shell) : Shell :=
  { g with state := .playing, score := 0, wave := 1, kills := 0, time := 0 }

/-- Embedding of `GameEngine.gameOver` (invoked from `update` only while
playing): sets the terminal state. -/
def gameOverCmd (g : Shell) : Shell :=
  { g with state := .gameover }

/-- The two commands a presentation layer can push besides `start`. -/
inductive Cmd
  | pause
  | resume
  deriving Repr, DecidableEq

/-- Apply one presentation command. -/
def applyCmd (c : Cmd) (g : Shell) : Shell :=
  match c with
  | .pause => pauseCmd g
  | .resume => resumeCmd g

/-- Apply a sequence of pause/resume commands. -/
def applyCmds (cs : List Cmd) (g : Shell) : Shell :=
  cs.foldl (fun s c => applyCmd c s) g

/-- A concrete shell in the gameover phase. -/
def shellOver : Shell :=
  { state := .gameover, score := 900, wave := 4, kills := 31, time := 95 }

/-- A concrete shell in the playing phase. -/
def shellPlay : Shell :=
  { state := .playing, score := 150, wave := 2, kills := 7, time := 40 }

/-! ## Vector math (class Vector2D)

The JS class mutates in place; values here are pure, matching the static
variants and the value computed by each mutating call. -/

structure Vec where
  x : ℝ
  y : ℝ

namespace Vec

/-- Componentwise sum (`Vector2D.add`). -/
def add (v w : Vec) : Vec := ⟨v.x + w.x, v.y + w.y⟩

/-- Componentwise difference (`Vector2D.subtract`). -/
def sub (v w : Vec) : Vec := ⟨v.x - w.x, v.y - w.y⟩

/-- Scalar multiple (`Vector2D.multiply`). -/
noncomputable def smul (v : Vec) (s : ℝ) : Vec := ⟨v.x * s, v.y * s⟩

/-- Dot product (`Vector2D.dot`). -/
def dot (v w : Vec) : ℝ := v.x * w.x + v.y * w.y

/-- Euclidean length (`Vector2D.magnitude`). -/
noncomputable def magnitude (v : Vec) : ℝ := Real.sqrt (v.x * v.x + v.y * v.y)

/-- Unit vector (`Vector2D.normalize`); a no-op on the zero vector. -/
noncomputable def normalize (v : Vec) : Vec :=
  if 0 < v.magnitude then ⟨v.x / v.magnitude, v.y / v.magnitude⟩ else v

/-- Vector from polar data (`Vector2D.fromAngle`). -/
noncomputable def fromAngle (angle mag : ℝ) : Vec :=
  ⟨Real.cos angle * mag, Real.sin angle * mag⟩

end Vec

/-! ## Physics body (src/js/engine/PhysicsBody.js) -/

structure Body where
  position : Vec
  velocity : Vec
  acceleration : Vec
  force : Vec
  mass : ℝ
  inverseMass : ℝ
  angle : ℝ
  angularVelocity : ℝ
  angularAcceleration : ℝ
  torque : ℝ
  linearDamping : ℝ
  angularDamping : ℝ
  restitution : ℝ
  isStatic : Bool

namespace Body

/-- The `PhysicsBody` constructor with its default field values. -/
noncomputable def mk' (x y mass : ℝ) : Body :=
  { position := ⟨x, y⟩
    velocity := ⟨0, 0⟩
    acceleration := ⟨0, 0⟩
    force := ⟨0, 0⟩
    mass := mass
    inverseMass := if 0 < mass then mass⁻¹ else 0
    angle := 0
    angularVelocity := 0
    angularAcceleration := 0
    torque := 0
    linearDamping := 999 / 1000
    angularDamping := 995 / 1000
    restitution := 8 / 10
    isStatic := false }

/-- Embedding of `PhysicsBody.update(deltaTime)`: semi-implicit Euler
with frame-rate-independent damping, then force/torque reset. -/
noncomputable def update (dt : ℝ) (b : Body) : Body :=
  if b.isStatic then b
  else
    let acc := b.force.smul b.inverseMass
    let v1 := b.velocity.add (acc.smul dt)
    let v2 := v1.smul (b.linearDamping ^ (dt * 60))
    let pos := b.position.add (v2.smul dt)
    let aacc := b.torque * b.inverseMass
    let av1 := b.angularVelocity + aacc * dt
    let av2 := av1 * (b.angularDamping ^ (dt * 60))
    let ang := b.angle + av2 * dt
    { b with
      acceleration := acc
      velocity := v2
      position := pos
      angularAcceleration := aacc
      angularVelocity := av2
      angle := ang
      force := ⟨0, 0⟩
      torque := 0 }

end Body

/-- Embedding of `CollisionSystem.resolveCollision(obj1, obj2,
restitution)` from the collision utility layer: impulse resolution with
an early return when the bodies separate.  Returns the updated pair. -/
noncomputable def resolveCollision (r : ℝ) (a b : Body) : Body × Body :=
  let normal := (Vec.sub b.position a.position).normalize
  let relativeVelocity := Vec.sub b.velocity a.velocity
  let velocityAlongNormal := Vec.dot relativeVelocity normal
  if 0 < velocityAlongNormal then (a, b)
  else
    let e := min a.restitution b.restitution * r
    let j := (-(1 + e) * velocityAlongNormal) / (a.inverseMass + b.inverseMass)
    let impulse := normal.smul j
    let a' :=
      if a.isStatic then a
      else { a with velocity := a.velocity.add (impulse.smul (-a.inverseMass)) }
    let b' :=
      if b.isStatic then b
      else { b with velocity := b.velocity.add (impulse.smul b.inverseMass) }
    (a', b')

/-- Total linear momentum of a pair of bodies, componentwise. -/
noncomputable def totalMomentum (a b : Body) : Vec :=
  ⟨a.mass * a.velocity.x + b.mass * b.velocity.x,
   a.mass * a.velocity.y + b.mass * b.velocity.y⟩

/-! ## Asteroid entity (src/js/engine/GameObjects.js)

The constructor also draws a random colour, silhouette, spin and id; none
of those fields feed back into the claims, so the embedded record carries
only the simulation-relevant fields, which the constructor sets
deterministically from its arguments. -/

/-- The `massMap` of the `Asteroid` constructor. -/
noncomputable def massMap : Size → ℝ
  | .small => 1 / 2
  | .medium => 1
  | .large => 2
  | .huge => 4

/-- The `sizeMap` (collision radius) of the `Asteroid` constructor. -/
noncomputable def sizeMap : Size → ℝ
  | .small => 20
  | .medium => 35
  | .large => 50
  | .huge => 70

structure Asteroid where
  size : Size
  radius : ℝ
  health : ℝ
  maxHealth : ℝ
  mass : ℝ
  position : Vec
  velocity : Vec
  isBoss : Bool
  scoreValue : ℝ

/-- The `Asteroid` constructor (simulation-relevant fields). -/
noncomputable def mkAsteroid (x y : ℝ) (size : Size) (vel : Option Vec) : Asteroid :=
  { size := size
    radius := sizeMap size
    health := sizeMap size
    maxHealth := sizeMap size
    mass := massMap size
    position := ⟨x, y⟩
    velocity := vel.getD ⟨0, 0⟩
    isBoss := false
    scoreValue := 0 }

/-- Embedding of `Asteroid.split()`.  The random draws of the source
(`Math.random()` values in `[0,1)`) are passed in explicitly: `rCount`
decides between 2 and 3 fragments, `rJit i` is the angular jitter and
`rSpd i` the speed draw of fragment `i`. -/
noncomputable def Asteroid.split (rCount : ℝ) (rJit rSpd : ℕ → ℝ)
    (p : Asteroid) : List Asteroid :=
  let currentIndex := sizeHierarchy.indexOf p.size
  if currentIndex < sizeHierarchy.length - 1 then
    let newSize := hierNext p.size
    let count := 2 + (⌊rCount * 2⌋).toNat
    (List.range count).map fun i =>
      let angle := Real.pi * 2 * i / count + (rJit i - 1 / 2)
      let speed := 50 + rSpd i * 100
      let vel := (Vec.fromAngle angle speed).add p.velocity
      let off := Vec.fromAngle angle (p.radius * (1 / 2))
      let pos := p.position.add off
      mkAsteroid pos.x pos.y newSize (some vel)
  else []

/-- A concrete medium asteroid used to instantiate theorems. -/
noncomputable def astMedium : Asteroid := mkAsteroid 100 200 .medium (some ⟨3, 4⟩)

/-- A concrete small asteroid used to instantiate theorems. -/
noncomputable def astSmall : Asteroid := mkAsteroid 100 200 .small none

/-! ## Spawning, waves and the boss gate (src/js/engine/GameEngine.js) -/

/-- The spawn-related `config` fields of the engine. -/
structure SpawnConfig where
  asteroidSpawnRate : ℚ
  asteroidSpawnIncrease : ℚ
  maxAsteroids : ℕ
  difficultyMultiplier : ℚ
  bossWaveInterval : ℕ
  deriving Repr

/-- The world slice touched by wave progression and spawning. -/
structure World where
  width : ℝ
  wave : ℕ
  waveTimer : ℚ
  config : SpawnConfig
  bossActive : Bool
  asteroids : List Asteroid

/-- The boss built by `GameEngine.spawnBoss` (stat overrides applied to a
huge asteroid). -/
noncomputable def mkBoss (width : ℝ) (wave : ℕ) : Asteroid :=
  let base := mkAsteroid (width / 2) (-100) .huge (some ⟨0, 50⟩)
  { base with
    isBoss := true
    health := 200 + wave * 50
    maxHealth := 200 + wave * 50
    scoreValue := (bossScoreValue : ℝ)
    radius := base.radius * (3 / 2) }

/-- Embedding of `GameEngine.spawnBoss` at the world level. -/
noncomputable def spawnBossStep (w : World) : World :=
  { w with
    bossActive := true
    asteroids := w.asteroids ++ [mkBoss w.width w.wave] }

/-- Embedding of the wave-progression block of `GameEngine.update`:
advance the wave, scale difficulty, and run the boss-wave check. -/
noncomputable def waveStep (w : World) : World :=
  let w' :=
    { w with
      waveTimer := 0
      wave := w.wave + 1
      config :=
        { w.config with
          asteroidSpawnRate := w.config.asteroidSpawnRate * w.config.asteroidSpawnIncrease
          maxAsteroids := w.config.maxAsteroids + 2
          difficultyMultiplier := w.config.difficultyMultiplier + 1 / 10 } }
  if w'.wave % w'.config.bossWaveInterval = 0 then spawnBossStep w' else w'

/-- Embedding of the guards of `GameEngine.spawnAsteroid`: a capacity
check, then the boss gate; only then is the (randomly constructed)
asteroid `a` pushed. -/
def spawnAsteroidStep (a : Asteroid) (w : World) : World :=
  if w.config.maxAsteroids ≤ w.asteroids.length then w
  else if w.bossActive then w
  else { w with asteroids := w.asteroids ++ [a] }

/-- Embedding of the two sites that end a boss fight (boss destroyed in
the projectile-kill branch, or the boss leaving the playfield):
both set `bossSystem.active = false`. -/
def endBossFight (w : World) : World :=
  { w with bossActive := false }

/-- A concrete world about to enter wave 5. -/
noncomputable def worldW4 : World :=
  { width := 800, wave := 4, waveTimer := 0
    config :=
      { asteroidSpawnRate := 2, asteroidSpawnIncrease := 85 / 100
        maxAsteroids := 20, difficultyMultiplier := 1, bossWaveInterval := 5 }
    bossActive := false
    asteroids := [] }

/-! ## Lane-shooter horizontal movement (src/js/engine/GameEngine.js)

The x-projection of the per-frame pipeline in lane-shooter mode:
`handleInput` (velocity easing, then the input-side bounds clamp),
`player.update` (integration with damping, then the velocity limit), and
the post-integration clamp of `update`.  In lane mode the vertical
velocity is pinned to 0 by `handleInput`, so the x-component evolves
independently; the horizontal force on the player stays a parameter. -/

/-- The lane-movement tuning fields of the engine `config`. -/
structure LaneCfg where
  maxSpeedX : ℝ
  accelX : ℝ
  decelX : ℝ
  frictionX : ℝ

/-- Horizontal player state: position and velocity. -/
structure LaneState where
  x : ℝ
  vx : ℝ

/-- The lane-movement part of `GameEngine.handleInput`: ease the
horizontal velocity toward `inputX * maxSpeedX`, apply release friction,
clamp the speed, then clamp the position to the 50-pixel margins. -/
noncomputable def handleInputLane (cfg : LaneCfg) (width dt inputX : ℝ)
    (s : LaneState) : LaneState :=
  let targetVx := inputX * cfg.maxSpeedX
  let velocityDiff := targetVx - s.vx
  let vx1 :=
    if 1 / 10 < |velocityDiff| then
      let rate := if |s.vx| < |targetVx| then cfg.accelX else cfg.decelX
      let deltaV := Real.sign velocityDiff * rate * dt
      if |deltaV| < |velocityDiff| then s.vx + deltaV else targetVx
    else targetVx
  let vx2 := if inputX = 0 ∧ 1 < |s.vx| then vx1 * cfg.frictionX else vx1
  let vx3 := max (-cfg.maxSpeedX) (min cfg.maxSpeedX vx2)
  let s1 : LaneState :=
    if s.x < 50 then ⟨50, max 0 vx3⟩ else ⟨s.x, vx3⟩
  if width - 50 < s1.x then ⟨width - 50, min 0 s1.vx⟩ else s1

/-- One full update step of the horizontal player state in lane-shooter
mode: input easing and clamp, semi-implicit Euler integration with
damping (`linearDamping = 0.999`), the speed limit, and the
post-integration clamp of `GameEngine.update`. -/
noncomputable def laneStep (cfg : LaneCfg) (width dt inputX fx invMass : ℝ)
    (s : LaneState) : LaneState :=
  let s1 := handleInputLane cfg width dt inputX s
  let vxi := (s1.vx + fx * invMass * dt) * ((999 / 1000 : ℝ) ^ (dt * 60))
  let xi := s1.x + vxi * dt
  let vxl :=
    if (600 : ℝ) * 600 < vxi * vxi
    then vxi / Real.sqrt (vxi * vxi) * 600 else vxi
  let s2 : LaneState :=
    if xi < 50 then ⟨50, 0⟩ else ⟨xi, vxl⟩
  if width - 50 < s2.x then ⟨width - 50, 0⟩ else s2

/-! ## Concrete fixtures for the physics theorems -/

/-- A concrete moving, forced, non-static body. -/
noncomputable def bodyD : Body :=
  { Body.mk' 1 2 2 with
    velocity := ⟨3, 4⟩, force := ⟨5, 6⟩, torque := 7, angularVelocity := 8 }

/-- A concrete static body. -/
noncomputable def bodyS : Body :=
  { Body.mk' 0 0 1 with velocity := ⟨3, 4⟩, force := ⟨5, 6⟩, isStatic := true }

/-- A zero-mass body built by the `PhysicsBody` constructor: its
`isStatic` flag stays false but its inverse mass is 0. -/
noncomputable def bodyZero : Body := Body.mk' 0 0 0

/-- A unit-mass body approaching `bodyZero` from the right. -/
noncomputable def bodyOne : Body := { Body.mk' 1 0 1 with velocity := ⟨-1, 0⟩ }

/-- A unit-mass body at the origin moving right. -/
noncomputable def bodyL : Body := { Body.mk' 0 0 1 with velocity := ⟨1, 0⟩ }

/-- A mass-2 body to the right of `bodyL`, moving left. -/
noncomputable def bodyR : Body := { Body.mk' 1 0 2 with velocity := ⟨-1, 0⟩ }

/-- The default lane-movement tuning of the engine `config`. -/
noncomputable def cfgLane : LaneCfg :=
  { maxSpeedX := 450, accelX := 2800, decelX := 2000, frictionX := 92 / 100 }

/-- A concrete out-of-bounds fast-moving horizontal state. -/
noncomputable def laneS0 : LaneState := ⟨-1000, -450⟩

/-! # Theorems -/

/-- C1: while the shield is active with positive strength, takeDamage
reduces only the shield strength (health unchanged) and returns false;
once the strength is 0 a subsequent takeDamage reduces health instead. -/
theorem C1_shield_precedence (s : Ship) (a : ℚ)
    (hinv : s.invulnerable = false) :
    (s.shieldActive = true → 0 < s.shieldStrength →
      (s.takeDamage a).1 = false ∧
      (s.takeDamage a).2.health = s.health ∧
      (s.takeDamage a).2.shieldStrength = max 0 (s.shieldStrength - a) ∧
      (0 < a → (s.takeDamage a).2.shieldStrength < s.shieldStrength)) ∧
    (s.shieldStrength = 0 →
      (s.takeDamage a).2.health = max 0 (s.health - a) ∧
      (s.takeDamage a).2.shieldStrength = s.shieldStrength ∧
      (0 < a → 0 < s.health → (s.takeDamage a).2.health < s.health)) := by
  constructor
  · intro hact hstr
    have hcond : s.shieldActive ∧ 0 < s.shieldStrength := ⟨by simp [hact], hstr⟩
    simp only [Ship.takeDamage, hinv, Bool.false_eq_true, if_false, if_pos hcond]
    refine ⟨trivial, trivial, trivial, fun ha => ?_⟩
    exact max_lt hstr (by linarith)
  · intro hzero
    have hcond : ¬(s.shieldActive ∧ 0 < s.shieldStrength) := by
      rintro ⟨-, h⟩; rw [hzero] at h; exact lt_irrefl 0 h
    simp only [Ship.takeDamage, hinv, Bool.false_eq_true, if_false, if_neg hcond]
    refine ⟨trivial, trivial, fun ha hh => ?_⟩
    exact max_lt hh (by linarith)

/-- Witness for C1 at a concrete shielded ship and a concrete hit. -/
theorem C1_shield_precedence_witness :
    (shipA.takeDamage 30).1 = false ∧
    (shipA.takeDamage 30).2.health = shipA.health ∧
    (shipA.takeDamage 30).2.shieldStrength = max 0 (shipA.shieldStrength - 30) ∧
    (shipA.takeDamage 30).2.shieldStrength < shipA.shieldStrength := by
  have h := (C1_shield_precedence shipA 30 rfl).1 rfl (by norm_num [shipA])
  exact ⟨h.1, h.2.1, h.2.2.1, h.2.2.2 (by norm_num)⟩

/-- C10: an invulnerable ship takes no damage at all and takeDamage
returns false; the 1-second invulnerability window is entered only by a
hit that reaches the hull, never by a shield-absorbed hit; the window
survives an update of dt exactly when dt is less than the remaining
timer. -/
theorem C10_invulnerability (s : Ship) (a dt : ℚ) :
    (s.invulnerable = true →
      (s.takeDamage a).1 = false ∧ (s.takeDamage a).2 = s) ∧
    (s.invulnerable = false → s.shieldActive = true → 0 < s.shieldStrength →
      (s.takeDamage a).2.invulnerable = false ∧
      (s.takeDamage a).2.invulnerabilityTimer = s.invulnerabilityTimer) ∧
    (s.invulnerable = false → ¬(s.shieldActive = true ∧ 0 < s.shieldStrength) →
      (s.takeDamage a).2.invulnerable = true ∧
      (s.takeDamage a).2.invulnerabilityTimer = 1) ∧
    (s.invulnerable = true → dt < s.invulnerabilityTimer →
      (s.invulnStep dt).invulnerable = true) ∧
    (s.invulnerable = true → s.invulnerabilityTimer ≤ dt →
      (s.invulnStep dt).invulnerable = false) := by
  refine ⟨fun hinv => ?_, fun hinv hact hstr => ?_, fun hinv hcond => ?_,
    fun hinv hlt => ?_, fun hinv hle => ?_⟩
  · simp [Ship.takeDamage, hinv]
  · have hcond : s.shieldActive ∧ 0 < s.shieldStrength := ⟨by simp [hact], hstr⟩
    simp only [Ship.takeDamage, hinv, Bool.false_eq_true, if_false, if_pos hcond]
    exact ⟨trivial, trivial⟩
  · have hcond' : ¬(s.shieldActive ∧ 0 < s.shieldStrength) := by
      rintro ⟨h1, h2⟩; exact hcond ⟨by simp [h1], h2⟩
    simp only [Ship.takeDamage, hinv, Bool.false_eq_true, if_false, if_neg hcond']
    exact ⟨trivial, trivial⟩
  · have ht : max 0 (s.invulnerabilityTimer - dt) ≠ 0 := by
      have h1 : 0 < s.invulnerabilityTimer - dt := by linarith
      rw [max_eq_right h1.le]
      exact ne_of_gt h1
    simp [Ship.invulnStep, hinv, ht]
  · have ht : max 0 (s.invulnerabilityTimer - dt) = 0 := by
      have h1 : s.invulnerabilityTimer - dt ≤ 0 := by linarith
      exact max_eq_left h1
    simp [Ship.invulnStep, hinv, ht]

/-- Witness for C10 at concrete ships. -/
theorem C10_invulnerability_witness :
    ((shipC.takeDamage 50).1 = false ∧ (shipC.takeDamage 50).2 = shipC) ∧
    ((shipA.takeDamage 30).2.invulnerable = false ∧
      (shipA.takeDamage 30).2.invulnerabilityTimer = shipA.invulnerabilityTimer) ∧
    ((shipB.takeDamage 30).2.invulnerable = true ∧
      (shipB.takeDamage 30).2.invulnerabilityTimer = 1) ∧
    (shipC.invulnStep (1 / 2)).invulnerable = true ∧
    (shipC.invulnStep 2).invulnerable = false := by
  refine ⟨(C10_invulnerability shipC 50 0).1 rfl,
    (C10_invulnerability shipA 30 0).2.1 rfl rfl (by norm_num [shipA]),
    (C10_invulnerability shipB 30 0).2.2.1 rfl ?_,
    (C10_invulnerability shipC 50 (1 / 2)).2.2.2.1 rfl (by norm_num [shipC]),
    (C10_invulnerability shipC 50 2).2.2.2.2 rfl (by norm_num [shipC])⟩
  rintro ⟨h, -⟩
  simp [shipB] at h

/-- C5: after every kill the combo multiplier equals
`min(1 + 0.1 * comboCount, maxMultiplier)` and the awarded score equals
`floor(baseScoreForSize * comboMultiplier)`; at a fixed multiplier a huge
kill scores at most a boss kill; and a kill never awards a negative
score. -/
theorem C5_combo_scoring (g : ScoreState) (isBoss : Bool) (sv : ℚ) (sz : Size)
    (hmax : 0 ≤ g.combo.maxMultiplier) (hsv : 0 ≤ sv) :
    (registerKill isBoss sv sz g).combo.multiplier
      = min (1 + ((registerKill isBoss sv sz g).combo.count : ℚ) * (1 / 10))
          g.combo.maxMultiplier ∧
    (registerKill isBoss sv sz g).score
      = g.score +
          killScore (baseScore isBoss sv sz) (increaseCombo g.combo).multiplier ∧
    killScore (scoreMap .huge) (increaseCombo g.combo).multiplier
      ≤ killScore bossScoreValue (increaseCombo g.combo).multiplier ∧
    g.score ≤ (registerKill isBoss sv sz g).score := by
  have hm : 0 ≤ (increaseCombo g.combo).multiplier := by
    have h1 : (0 : ℚ) ≤ 1 + ((g.combo.count + 1 : ℕ) : ℚ) * (1 / 10) := by
      positivity
    exact le_min h1 hmax
  refine ⟨rfl, rfl, ?_, ?_⟩
  · exact Int.floor_le_floor
      (mul_le_mul_of_nonneg_right (by norm_num [scoreMap, bossScoreValue]) hm)
  · have hbase : 0 ≤ baseScore isBoss sv sz := by
      cases isBoss <;> cases sz <;> simp [baseScore, scoreMap] <;> linarith
    have hfin : 0 ≤ killScore (baseScore isBoss sv sz)
        (increaseCombo g.combo).multiplier :=
      Int.floor_nonneg.mpr (mul_nonneg hbase hm)
    simp only [registerKill]
    omega

/-- Witness for C5 at a concrete 12-kill combo state. -/
theorem C5_combo_scoring_witness :
    (registerKill false 1000 .huge scoreStateA).combo.multiplier
      = min (1 + ((registerKill false 1000 .huge scoreStateA).combo.count : ℚ) * (1 / 10))
          scoreStateA.combo.maxMultiplier ∧
    (registerKill false 1000 .huge scoreStateA).score
      = scoreStateA.score +
          killScore (baseScore false 1000 .huge)
            (increaseCombo scoreStateA.combo).multiplier ∧
    killScore (scoreMap .huge) (increaseCombo scoreStateA.combo).multiplier
      ≤ killScore bossScoreValue (increaseCombo scoreStateA.combo).multiplier ∧
    scoreStateA.score ≤ (registerKill false 1000 .huge scoreStateA).score :=
  C5_combo_scoring scoreStateA false 1000 .huge
    (by norm_num [scoreStateA]) (by norm_num)

/-- The combo-timer block is inert once the combo count is zero. -/
theorem comboTick_of_count_zero (dt : ℚ) (g : ScoreState)
    (h : g.combo.count = 0) : comboTick dt g = g := by
  simp [comboTick, h]

/-- Folding the combo-timer block over any deltas is inert once the combo
count is zero. -/
theorem comboTicks_of_count_zero (dts : List ℚ) (g : ScoreState)
    (h : g.combo.count = 0) : comboTicks dts g = g := by
  induction dts generalizing g with
  | nil => rfl
  | cons d rest ih =>
      have h1 : comboTick d g = g := comboTick_of_count_zero d g h
      simp only [comboTicks, List.foldl_cons, h1]
      exact ih g h

/-- Resetting the combo does not depend on the pre-reset timer value. -/
theorem resetCombo_timer_irrelevant (g : ScoreState) (t : ℚ) :
    resetCombo { g with combo := { g.combo with timer := t } } = resetCombo g := by
  simp [resetCombo]

/-- A live combo whose timer crosses `maxTime = 3` over a run of frames
ends up exactly in the reset state. -/
theorem comboTicks_reset (dts : List ℚ) : ∀ g : ScoreState,
    0 < g.combo.count → g.combo.maxTime = 3 →
    g.combo.timer < 3 → 3 ≤ g.combo.timer + dts.sum →
    comboTicks dts g = resetCombo g := by
  induction dts with
  | nil =>
      intro g hc hm ht hsum
      simp only [List.sum_nil, add_zero] at hsum
      linarith
  | cons d rest ih =>
      intro g hc hm ht hsum
      by_cases hd : 3 ≤ g.combo.timer + d
      · have hstep : comboTick d g =
            resetCombo { g with combo := { g.combo with timer := g.combo.timer + d } } := by
          simp [comboTick, hc, hm, hd]
        have hzero :
            (resetCombo { g with combo := { g.combo with timer := g.combo.timer + d } }).combo.count = 0 := by
          simp [resetCombo]
        calc comboTicks (d :: rest) g
            = comboTicks rest (comboTick d g) := rfl
          _ = comboTick d g := by
              rw [hstep]
              exact comboTicks_of_count_zero _ _ hzero
          _ = resetCombo g := by
              rw [hstep]
              exact resetCombo_timer_irrelevant g _
      · push_neg at hd
        have hstep : comboTick d g =
            { g with combo := { g.combo with timer := g.combo.timer + d } } := by
          simp [comboTick, hc, hm, not_le.mpr hd]
        have hrest : comboTicks rest { g with combo := { g.combo with timer := g.combo.timer + d } }
            = resetCombo { g with combo := { g.combo with timer := g.combo.timer + d } } := by
          apply ih
          · simpa using hc
          · simpa using hm
          · simpa using hd
          · simp only [List.sum_cons] at hsum
            simpa [add_assoc] using hsum
        calc comboTicks (d :: rest) g
            = comboTicks rest (comboTick d g) := rfl
          _ = resetCombo { g with combo := { g.combo with timer := g.combo.timer + d } } := by
              rw [hstep]; exact hrest
          _ = resetCombo g := resetCombo_timer_irrelevant g _

/-- C6: if no kill happens while the frame deltas accumulate to
`maxComboTime = 3.0` seconds of simulated time, the combo count and timer
reset to 0 and the multiplier to 1.0; a combo of at least 10 banks the
strictly positive bonus `floor(count * 50)`. -/
theorem C6_combo_decay (g : ScoreState) (dts : List ℚ)
    (hc : 0 < g.combo.count) (ht : g.combo.timer = 0)
    (hm : g.combo.maxTime = 3) (hsum : 3 ≤ dts.sum) :
    (comboTicks dts g).combo.count = 0 ∧
    (comboTicks dts g).combo.timer = 0 ∧
    (comboTicks dts g).combo.multiplier = 1 ∧
    (10 ≤ g.combo.count →
      (comboTicks dts g).score = g.score + (g.combo.count : ℤ) * 50 ∧
      g.score < (comboTicks dts g).score) := by
  have hreset := comboTicks_reset dts g hc hm (by rw [ht]; norm_num)
    (by rw [ht]; simpa using hsum)
  rw [hreset]
  have hfloor : ⌊((g.combo.count : ℚ) * 50)⌋ = (g.combo.count : ℤ) * 50 := by
    rw [show ((g.combo.count : ℚ) * 50) = (((g.combo.count : ℤ) * 50 : ℤ) : ℚ) by push_cast; ring]
    exact Int.floor_intCast _
  refine ⟨by simp [resetCombo], by simp [resetCombo], by simp [resetCombo],
    fun hten => ?_⟩
  constructor
  · simp [resetCombo, hten, hfloor]
  · have hpos : (0 : ℤ) < (g.combo.count : ℤ) * 50 := by positivity
    simp only [resetCombo, if_pos hten, hfloor]
    omega

/-- Witness for C6: a 12-kill combo decays over three 1-second frames. -/
theorem C6_combo_decay_witness :
    (comboTicks [1, 1, 1] scoreStateA).combo.count = 0 ∧
    (comboTicks [1, 1, 1] scoreStateA).combo.timer = 0 ∧
    (comboTicks [1, 1, 1] scoreStateA).combo.multiplier = 1 ∧
    (comboTicks [1, 1, 1] scoreStateA).score = scoreStateA.score + 12 * 50 ∧
    scoreStateA.score < (comboTicks [1, 1, 1] scoreStateA).score := by
  have h := C6_combo_decay scoreStateA [1, 1, 1]
    (by norm_num [scoreStateA]) (by norm_num [scoreStateA])
    (by norm_num [scoreStateA]) (by norm_num)
  have h4 := h.2.2.2 (by norm_num [scoreStateA])
  refine ⟨h.1, h.2.1, h.2.2.1, ?_, h4.2⟩
  have : ((scoreStateA.combo.count : ℤ)) = 12 := by norm_num [scoreStateA]
  rw [h4.1, this]

/-- C8: the run-state machine admits only
menu to playing, playing to paused and back, and playing to gameover:
`pause` changes state only from playing, `resume` only from paused (both
are no-ops, leaving the whole session unchanged, elsewhere), and the
gameover state persists under any pause/resume commands until an explicit
`start` re-enters playing. -/
theorem C8_state_machine (g : Shell) (cs : List Cmd) :
    (g.state = .playing → pauseCmd g = { g with state := .paused }) ∧
    (g.state ≠ .playing → pauseCmd g = g) ∧
    (g.state = .paused → resumeCmd g = { g with state := .playing }) ∧
    (g.state ≠ .paused → resumeCmd g = g) ∧
    (startCmd g).state = .playing ∧
    (g.state = .gameover → applyCmds cs g = g) := by
  refine ⟨fun h => by simp [pauseCmd, h], fun h => by simp [pauseCmd, h],
    fun h => by simp [resumeCmd, h], fun h => by simp [resumeCmd, h],
    rfl, fun h => ?_⟩
  induction cs generalizing g with
  | nil => rfl
  | cons c rest ih =>
      have hstep : applyCmd c g = g := by
        cases c
        · simp [applyCmd, pauseCmd, h]
        · simp [applyCmd, resumeCmd, h]
      calc applyCmds (c :: rest) g = applyCmds rest (applyCmd c g) := rfl
        _ = applyCmds rest g := by rw [hstep]
        _ = g := ih g h

/-- Witness for C8 at concrete playing and gameover shells. -/
theorem C8_state_machine_witness :
    pauseCmd shellPlay = { shellPlay with state := .paused } ∧
    resumeCmd shellOver = shellOver ∧
    (startCmd shellOver).state = .playing ∧
    applyCmds [.pause, .resume, .pause] shellOver = shellOver := by
  refine ⟨(C8_state_machine shellPlay []).1 rfl,
    (C8_state_machine shellOver []).2.2.2.1 (by decide),
    (C8_state_machine shellOver []).2.2.2.2.1,
    (C8_state_machine shellOver [.pause, .resume, .pause]).2.2.2.2.2 rfl⟩

/-- C7: with `bossWaveInterval = 5`, the wave step entering wave 5 spawns
exactly one boss and activates the boss system; while the boss system is
active `spawnAsteroid` adds nothing; once the boss fight ends (boss
destroyed or off the playfield) the spawner appends again when below
capacity. -/
theorem C7_boss_gating (w : World) (a : Asteroid)
    (hint : w.config.bossWaveInterval = 5) (hw : w.wave = 4) :
    (waveStep w).wave = 5 ∧
    (waveStep w).bossActive = true ∧
    (waveStep w).asteroids = w.asteroids ++ [mkBoss w.width 5] ∧
    (mkBoss w.width 5).isBoss = true ∧
    spawnAsteroidStep a (waveStep w) = waveStep w ∧
    (endBossFight (waveStep w)).bossActive = false ∧
    ((waveStep w).asteroids.length < (waveStep w).config.maxAsteroids →
      spawnAsteroidStep a (endBossFight (waveStep w)) =
        { endBossFight (waveStep w) with
            asteroids := (waveStep w).asteroids ++ [a] }) := by
  have hmod : (w.wave + 1) % w.config.bossWaveInterval = 0 := by
    rw [hint, hw]
  have hstep : waveStep w = spawnBossStep
      { w with
        waveTimer := 0
        wave := w.wave + 1
        config :=
          { w.config with
            asteroidSpawnRate := w.config.asteroidSpawnRate * w.config.asteroidSpawnIncrease
            maxAsteroids := w.config.maxAsteroids + 2
            difficultyMultiplier := w.config.difficultyMultiplier + 1 / 10 } } := by
    simp only [waveStep]
    rw [if_pos hmod]
  refine ⟨?_, ?_, ?_, rfl, ?_, rfl, ?_⟩
  · rw [hstep]; simp [spawnBossStep, hw]
  · rw [hstep]; rfl
  · rw [hstep]; simp [spawnBossStep, hw]
  · have hact : (waveStep w).bossActive = true := by rw [hstep]; rfl
    simp only [spawnAsteroidStep, hact]
    split_ifs <;> rfl
  · intro hcap
    have hcap2 : ¬ ((waveStep w).config.maxAsteroids ≤
        (waveStep w).asteroids.length) := Nat.not_le.mpr hcap
    simp [spawnAsteroidStep, endBossFight, hcap2]

/-- Witness for C7 at a concrete world entering wave 5. -/
theorem C7_boss_gating_witness :
    (waveStep worldW4).wave = 5 ∧
    (waveStep worldW4).bossActive = true ∧
    (mkBoss worldW4.width 5).isBoss = true ∧
    spawnAsteroidStep astSmall (waveStep worldW4) = waveStep worldW4 ∧
    (endBossFight (waveStep worldW4)).bossActive = false ∧
    spawnAsteroidStep astSmall (endBossFight (waveStep worldW4)) =
      { endBossFight (waveStep worldW4) with
          asteroids := (waveStep worldW4).asteroids ++ [astSmall] } := by
  have h := C7_boss_gating worldW4 astSmall rfl rfl
  have hcap : (waveStep worldW4).asteroids.length <
      (waveStep worldW4).config.maxAsteroids := by
    rw [h.2.2.1]
    norm_num [waveStep, spawnBossStep, worldW4]
  exact ⟨h.1, h.2.1, h.2.2.2.1, h.2.2.2.2.1, h.2.2.2.2.2.1,
    h.2.2.2.2.2.2 hcap⟩

/-- C2: for a non-static body, `update(dt)` performs semi-implicit Euler
integration (acceleration from force, velocity update, damping scaled by
`damping ^ (dt * 60)`, position update, the same pattern for the angular
terms) and clears the force and torque accumulators; a static body is
left entirely unchanged. -/
theorem C2_integration (b : Body) (dt : ℝ) :
    (b.isStatic = false →
      (Body.update dt b).velocity.x
          = (b.velocity.x + b.force.x * b.inverseMass * dt)
              * b.linearDamping ^ (dt * 60) ∧
      (Body.update dt b).velocity.y
          = (b.velocity.y + b.force.y * b.inverseMass * dt)
              * b.linearDamping ^ (dt * 60) ∧
      (Body.update dt b).position.x
          = b.position.x + (Body.update dt b).velocity.x * dt ∧
      (Body.update dt b).position.y
          = b.position.y + (Body.update dt b).velocity.y * dt ∧
      (Body.update dt b).angularVelocity
          = (b.angularVelocity + b.torque * b.inverseMass * dt)
              * b.angularDamping ^ (dt * 60) ∧
      (Body.update dt b).angle
          = b.angle + (Body.update dt b).angularVelocity * dt ∧
      (Body.update dt b).force = Vec.mk 0 0 ∧
      (Body.update dt b).torque = 0) ∧
    (b.isStatic = true → Body.update dt b = b) := by
  constructor
  · intro h
    refine ⟨?_, ?_, ?_, ?_, ?_, ?_, ?_, ?_⟩ <;>
      simp only [Body.update, h, Bool.false_eq_true, if_false, Vec.add,
        Vec.smul]
  · intro h
    simp [Body.update, h]

/-- Witness for C2 at concrete dynamic and static bodies. -/
theorem C2_integration_witness :
    ((Body.update 1 bodyD).velocity.x
        = (bodyD.velocity.x + bodyD.force.x * bodyD.inverseMass * 1)
            * bodyD.linearDamping ^ ((1 : ℝ) * 60) ∧
      (Body.update 1 bodyD).position.x
        = bodyD.position.x + (Body.update 1 bodyD).velocity.x * 1 ∧
      (Body.update 1 bodyD).force = Vec.mk 0 0 ∧
      (Body.update 1 bodyD).torque = 0) ∧
    Body.update 1 bodyS = bodyS := by
  have hd := (C2_integration bodyD 1).1 rfl
  have hs := (C2_integration bodyS 1).2 rfl
  exact ⟨⟨hd.1, hd.2.2.1, hd.2.2.2.2.2.2.1, hd.2.2.2.2.2.2.2⟩, hs⟩

/-- Arithmetic core of momentum conservation for an impulse applied in
opposite directions scaled by the inverse masses. -/
theorem impulse_momentum_aux (ma mb ia ib va vb c : ℝ)
    (h1 : ma * ia = 1) (h2 : mb * ib = 1) :
    ma * (va + c * -ia) + mb * (vb + c * ib) = ma * va + mb * vb := by
  linear_combination c * h2 - c * h1

/-- C3 (amended): for two non-static bodies with positive mass whose
inverse-mass fields obey the constructor invariant, `resolveCollision`
conserves total momentum exactly (for equal restitutions in particular);
a static body is never modified; and if the relative velocity along the
collision normal indicates separation, both bodies are left unchanged. -/
theorem C3_resolve_collision (r : ℝ) (a b : Body)
    (hia : a.inverseMass = a.mass⁻¹) (hib : b.inverseMass = b.mass⁻¹)
    (hma : 0 < a.mass) (hmb : 0 < b.mass)
    (hrest : a.restitution = b.restitution) :
    (a.isStatic = false → b.isStatic = false →
      totalMomentum (resolveCollision r a b).1 (resolveCollision r a b).2
        = totalMomentum a b) ∧
    (a.isStatic = true → (resolveCollision r a b).1 = a) ∧
    (b.isStatic = true → (resolveCollision r a b).2 = b) ∧
    (0 < Vec.dot (Vec.sub b.velocity a.velocity)
        ((Vec.sub b.position a.position).normalize) →
      resolveCollision r a b = (a, b)) := by
  have h1 : a.mass * a.inverseMass = 1 := by
    rw [hia]; exact mul_inv_cancel₀ (ne_of_gt hma)
  have h2 : b.mass * b.inverseMass = 1 := by
    rw [hib]; exact mul_inv_cancel₀ (ne_of_gt hmb)
  by_cases hsep : 0 < Vec.dot (Vec.sub b.velocity a.velocity)
      ((Vec.sub b.position a.position).normalize)
  · refine ⟨fun _ _ => ?_, fun _ => ?_, fun _ => ?_, fun _ => ?_⟩ <;>
      simp [resolveCollision, hsep]
  · refine ⟨fun hsa hsb => ?_, fun hsa => ?_, fun hsb => ?_, fun h => absurd h hsep⟩
    · simp only [resolveCollision, if_neg hsep, hsa, hsb, Bool.false_eq_true,
        if_false, totalMomentum, Vec.add, Vec.smul]
      refine congrArg₂ Vec.mk ?_ ?_
      · exact impulse_momentum_aux _ _ _ _ _ _ _ h1 h2
      · exact impulse_momentum_aux _ _ _ _ _ _ _ h1 h2
    · simp [resolveCollision, if_neg hsep, hsa]
    · simp [resolveCollision, if_neg hsep, hsb]

/-- Witness for C3 at two concrete approaching unit/double-mass bodies. -/
theorem C3_resolve_collision_witness :
    totalMomentum (resolveCollision (8 / 10) bodyL bodyR).1
        (resolveCollision (8 / 10) bodyL bodyR).2
      = totalMomentum bodyL bodyR := by
  have h := C3_resolve_collision (8 / 10) bodyL bodyR
    (by norm_num [bodyL, Body.mk']) (by norm_num [bodyR, Body.mk'])
    (by norm_num [bodyL, Body.mk']) (by norm_num [bodyR, Body.mk'])
    (by norm_num [bodyL, bodyR, Body.mk'])
  exact h.1 rfl rfl

/-- C3 counterexample: a zero-mass body from the `PhysicsBody`
constructor is non-static with the default restitution, yet resolving its
collision with an approaching unit-mass body changes the total momentum,
refuting the claim for arbitrary non-static bodies. -/
theorem C3_counterexample :
    bodyZero.isStatic = false ∧ bodyOne.isStatic = false ∧
    bodyZero.restitution = bodyOne.restitution ∧
    (totalMomentum (resolveCollision (8 / 10) bodyZero bodyOne).1
        (resolveCollision (8 / 10) bodyZero bodyOne).2).x
      ≠ (totalMomentum bodyZero bodyOne).x := by
  have hmag : Vec.magnitude ⟨1, 0⟩ = 1 := by
    simp [Vec.magnitude]
  have hnorm : Vec.normalize ⟨1, 0⟩ = ⟨1, 0⟩ := by
    rw [Vec.normalize, if_pos (by rw [hmag]; norm_num), hmag]
    norm_num
  have hsub : Vec.sub bodyOne.position bodyZero.position = ⟨1, 0⟩ := by
    simp [bodyOne, bodyZero, Body.mk', Vec.sub]
  have hvel : Vec.sub bodyOne.velocity bodyZero.velocity = ⟨-1, 0⟩ := by
    simp [bodyOne, bodyZero, Body.mk', Vec.sub]
  refine ⟨rfl, rfl, rfl, ?_⟩
  simp only [resolveCollision, hsub, hnorm, hvel, Vec.dot]
  rw [if_neg (by norm_num)]
  simp only [bodyZero, bodyOne, Body.mk', totalMomentum, Vec.add, Vec.smul,
    min_self]
  norm_num

/-- C4: splitting an asteroid that is not of the smallest class yields 2
or 3 fragments of the next-smaller class, each carrying the parent
velocity plus a radial kick of speed in `[50, 150)` and a position offset
radially (by half the parent radius) from the parent position; a small
asteroid yields no fragments; and the next-smaller class of `medium` is
`small`. -/
theorem C4_split (p : Asteroid) (rCount : ℝ) (rJit rSpd : ℕ → ℝ)
    (hc0 : 0 ≤ rCount) (hc1 : rCount < 1)
    (hs : ∀ i, 0 ≤ rSpd i ∧ rSpd i < 1) :
    (p.size ≠ .small →
      ((p.split rCount rJit rSpd).length = 2 ∨
        (p.split rCount rJit rSpd).length = 3) ∧
      (∀ f ∈ p.split rCount rJit rSpd, f.size = hierNext p.size) ∧
      (∀ f ∈ p.split rCount rJit rSpd, ∃ θ sp,
        50 ≤ sp ∧ sp < 150 ∧
        f.velocity = (Vec.fromAngle θ sp).add p.velocity ∧
        f.position = p.position.add (Vec.fromAngle θ (p.radius * (1 / 2))))) ∧
    (p.size = .small → p.split rCount rJit rSpd = []) ∧
    hierNext .medium = .small := by
  have hfl : ⌊rCount * 2⌋ = 0 ∨ ⌊rCount * 2⌋ = 1 := by
    have h0 : (0 : ℤ) ≤ ⌊rCount * 2⌋ := Int.floor_nonneg.mpr (by linarith)
    have h1 : ⌊rCount * 2⌋ < 2 := Int.floor_lt.mpr (by push_cast; linarith)
    omega
  refine ⟨fun hp => ?_, fun hp => ?_, by decide⟩
  · have hidx : sizeHierarchy.indexOf p.size < sizeHierarchy.length - 1 := by
      cases hq : p.size <;> simp [hq] at hp ⊢ <;> decide
    constructor
    · simp only [Asteroid.split, if_pos hidx, List.length_map, List.length_range]
      rcases hfl with h | h <;> rw [h] <;> [left; right] <;> rfl
    constructor
    · intro f hf
      simp only [Asteroid.split, if_pos hidx, List.mem_map] at hf
      obtain ⟨i, -, rfl⟩ := hf
      rfl
    · intro f hf
      simp only [Asteroid.split, if_pos hidx, List.mem_map] at hf
      obtain ⟨i, -, rfl⟩ := hf
      refine ⟨_, _, ?_, ?_, rfl, rfl⟩
      · have := (hs i).1; linarith
      · have := (hs i).2; linarith
  · have hidx : ¬ (sizeHierarchy.indexOf p.size < sizeHierarchy.length - 1) := by
      rw [hp]; decide
    simp [Asteroid.split, hidx]

/-- Witness for C4 at concrete medium and small asteroids with concrete
random draws. -/
theorem C4_split_witness :
    ((astMedium.split 0 (fun _ => 0) (fun _ => 0)).length = 2 ∨
      (astMedium.split 0 (fun _ => 0) (fun _ => 0)).length = 3) ∧
    astSmall.split 0 (fun _ => 0) (fun _ => 0) = [] ∧
    hierNext .medium = .small := by
  have hm := C4_split astMedium 0 (fun _ => 0) (fun _ => 0)
    (by norm_num) (by norm_num) (fun i => by norm_num)
  have hsm := C4_split astSmall 0 (fun _ => 0) (fun _ => 0)
    (by norm_num) (by norm_num) (fun i => by norm_num)
  have hsz : astMedium.size ≠ .small := by
    rw [show astMedium.size = Size.medium from rfl]
    decide
  exact ⟨(hm.1 hsz).1, hsm.2.1 rfl, hm.2.2⟩

/-- C9: in lane-shooter mode, after any single update step (input easing,
integration, speed limit and the post-integration clamp), and hence at
the end of every update step of any input sequence, the player x position
lies between the left margin 50 and `width - 50` for any held input,
horizontal force and frame delta. -/
theorem C9_lane_clamp (cfg : LaneCfg) (width dt inputX fx invMass : ℝ)
    (s : LaneState) (hw : 100 ≤ width) :
    50 ≤ (laneStep cfg width dt inputX fx invMass s).x ∧
    (laneStep cfg width dt inputX fx invMass s).x ≤ width - 50 := by
  simp only [laneStep]
  split_ifs <;> constructor <;> simp <;> linarith

/-- Witness for C9: a state far left of the field with full leftward
speed and leftward input is clamped back to the margin. -/
theorem C9_lane_clamp_witness :
    50 ≤ (laneStep cfgLane 800 (1 / 60) (-1) 0 (2 / 3) laneS0).x ∧
    (laneStep cfgLane 800 (1 / 60) (-1) 0 (2 / 3) laneS0).x ≤ 800 - 50 :=
  C9_lane_clamp cfgLane 800 (1 / 60) (-1) 0 (2 / 3) laneS0 (by norm_num)

end SpaceLanes
